import Mathlib

/-!
Verification of the keyboard proxy of this repository
(src/proxy/KeyboardProxy.ts, function startKeyboardProxy).

The proxy relays HTTP exchanges between a local client and an upstream at
localhost:targetPort.  HTML responses are buffered and mutated (a fixed
script is inserted before the first closing head tag, or appended when that
tag is absent), their content-length is recomputed and their CSP headers are
removed; every other response is piped through untouched.  Upgrade requests
are spliced over a raw TCP connection after replaying the request line and
headers.  The listen logic retries once on an address-in-use error.

Modelling conventions.  Node hands the request listener a header record keyed
by the lowercased header name whose values are strings or arrays of strings;
it is embedded as an association list with distinct keys in insertion order.
JS strings are embedded as lists of characters (the needles searched for are
ASCII, so code-unit search and code-point search agree), and byte lengths of
strings are taken through their UTF-8 encoding, which is what Buffer.byteLength
and socket writes use.  The tunnel path never decodes its traffic and is
embedded at the byte level.
-/

namespace OpencodeProxy

/-- One value of a Node header record: a plain string or an array of strings
(Node keeps repeated headers such as set-cookie as arrays). -/
inductive HVal where
  | str : String → HVal
  | arr : List String → HVal
deriving DecidableEq

/-- A Node header record: association list keyed by the lowercased header
name, distinct keys, insertion order. -/
abbrev Headers := List (String × HVal)

/-- Reading a key of a header record; none stands for the JS undefined. -/
def lookupH (k : String) : Headers → Option HVal
  | [] => none
  | (k₁, v) :: t => if k₁ = k then some v else lookupH k t

/-- The JS delete operator applied to a key of a header record. -/
def deleteH (k : String) : Headers → Headers
  | [] => []
  | (k₁, v) :: t => if k₁ = k then deleteH k t else (k₁, v) :: deleteH k t

/-- JS assignment of a record key: overwrite the entry in place when the key
is present, append it otherwise. -/
def setH (k : String) (v : HVal) : Headers → Headers
  | [] => [(k, v)]
  | (k₁, v₁) :: t => if k₁ = k then (k, v) :: t else (k₁, v₁) :: setH k v t

/-- Whether the first list starts the second. -/
def isPre {α : Type} [DecidableEq α] : List α → List α → Bool
  | [], _ => true
  | _ :: _, [] => false
  | a :: p, b :: l => decide (a = b) && isPre p l

/-- JS includes on a string: the pattern occurs contiguously in the list. -/
def containsSeq {α : Type} [DecidableEq α] (pat : List α) : List α → Bool
  | [] => isPre pat []
  | a :: t => isPre pat (a :: t) || containsSeq pat t

/-- Index of the first occurrence of the pattern, when there is one; the
description the specification states insertion positions with. -/
def firstOcc {α : Type} [DecidableEq α] (pat : List α) : List α → Option Nat
  | [] => if isPre pat [] then some 0 else none
  | a :: t => if isPre pat (a :: t) then some 0 else (firstOcc pat t).map (· + 1)

/-- JS replace with a plain string pattern: the first occurrence of the
pattern is replaced by the replacement; with no occurrence the list is
returned unchanged. -/
def replaceFirst {α : Type} [DecidableEq α] (pat repl : List α) : List α → List α
  | [] => if isPre pat [] then repl else []
  | a :: t =>
    if isPre pat (a :: t) then repl ++ (a :: t).drop pat.length
    else a :: replaceFirst pat repl t

/-- Buffer.byteLength of a JS string: the length of its UTF-8 encoding. -/
def utf8Len (l : List Char) : Nat := (l.map Char.utf8Size).sum

/-- The injected keyboard/clipboard bridge, verbatim from the source constant
KEYBOARD_SCRIPT (braces written as escapes). -/
def KEYBOARD_SCRIPT : String := "\n<script>\n  (function () \x7b\n    document.addEventListener(\"keydown\", function (e) \x7b\n      var mod = e.metaKey || e.ctrlKey;\n      if (!mod) return;\n\n      switch (e.key.toLowerCase()) \x7b\n        case \"c\":\n          document.execCommand(\"copy\");\n          break;\n        case \"x\":\n          document.execCommand(\"cut\");\n          break;\n        case \"a\":\n          e.preventDefault();\n          document.execCommand(\"selectAll\");\n          break;\n        case \"v\":\n          e.preventDefault();\n          window.parent.postMessage(\x7b type: \"paste-request\" \x7d, \"*\");\n          break;\n      \x7d\n    \x7d);\n\n    window.addEventListener(\"message\", function (e) \x7b\n      if (!e.data || e.data.type !== \"paste-response\") return;\n\n      if (e.data.image) \x7b\n        fetch(e.data.image)\n          .then(function (r) \x7b return r.blob(); \x7d)\n          .then(function (blob) \x7b\n            var file = new File([blob], \"image.png\", \x7b\n              type: e.data.mimeType || \"image/png\",\n            \x7d);\n            var dt = new DataTransfer();\n            dt.items.add(file);\n            var ev = new ClipboardEvent(\"paste\", \x7b\n              clipboardData: dt,\n              bubbles: true,\n              cancelable: true,\n            \x7d);\n            (document.activeElement || document).dispatchEvent(ev);\n          \x7d);\n      \x7d else if (typeof e.data.text === \"string\") \x7b\n        var t = e.data.text;\n        var el = document.activeElement;\n        if (!el) return;\n\n        if (el.tagName === \"INPUT\" || el.tagName === \"TEXTAREA\") \x7b\n          var s = el.selectionStart || 0;\n          var end = el.selectionEnd || 0;\n          el.setRangeText(t, s, end, \"end\");\n          el.dispatchEvent(new Event(\"input\", \x7b bubbles: true \x7d));\n        \x7d else if (\n          el.isContentEditable ||\n          (el.closest && el.closest(\"[contenteditable]\"))\n        ) \x7b\n          document.execCommand(\"insertText\", false, t);\n        \x7d\n      \x7d\n    \x7d);\n  \x7d)();\n</script>\n"

/-- The literal closing tag searched for in buffered HTML bodies. -/
def headCloseTag : String := "</head>"

/-- The body mutation of the HTML branch, from the source: when the body
includes the closing head tag, replace its first occurrence by the script
followed by the tag; otherwise append the script at the end. -/
def injectKeyboard (body : List Char) : List Char :=
  if containsSeq headCloseTag.data body then
    replaceFirst headCloseTag.data (KEYBOARD_SCRIPT.data ++ headCloseTag.data) body
  else body ++ KEYBOARD_SCRIPT.data

/-- JS `x || ""` on a header value: undefined becomes the empty string; the
only falsy defined value is the empty string, which is left as it is. -/
def jsOrEmptyStr (o : Option HVal) : HVal := o.getD (HVal.str "")

/-- JS includes on a header value: substring test on a string, whole-element
test on an array. -/
def hvalIncludes (v : HVal) (pat : String) : Bool :=
  match v with
  | .str s => containsSeq pat.data s.data
  | .arr a => a.contains pat

/-- The content-type test of the source: read the content-type entry of the
upstream response headers, default it to the empty string, and test for the
substring text/html. -/
def isHtmlCT (h : Headers) : Bool :=
  hvalIncludes (jsOrEmptyStr (lookupH "content-type" h)) "text/html"

/-- JS `proxyRes.statusCode || 200`: a missing (or zero, the only falsy
number a status could be) status code defaults to 200. -/
def statusOrDefault : Option Nat → Nat
  | none => 200
  | some s => if s = 0 then 200 else s

/-- The upstream response as the outbound request callback sees it: status
code, header record, and the body as its sequence of data chunks. -/
structure UpstreamResponse where
  statusCode : Option Nat
  headers : Headers
  chunks : List (List Char)
deriving DecidableEq

/-- What the handler writes on the client response: the status and header
record passed to writeHead, and the body chunks written after them. -/
structure ClientResponse where
  status : Nat
  headers : Headers
  bodyChunks : List (List Char)
deriving DecidableEq

/-- Client-bound headers of the HTML branch, from the source: copy the
upstream headers, set content-length to the byte length of the mutated body,
then delete content-encoding, content-security-policy and
content-security-policy-report-only. -/
def htmlOutHeaders (up : Headers) (body : List Char) : Headers :=
  deleteH "content-security-policy-report-only"
    (deleteH "content-security-policy"
      (deleteH "content-encoding"
        (setH "content-length" (HVal.str (Nat.repr (utf8Len body))) up)))

/-- The response relay of startKeyboardProxy: a response whose content type
includes text/html is buffered whole, mutated and written as one body with
the transformed headers; every other response is written with its own status
and headers and its body chunks are piped through one for one. -/
def handleProxyRes (r : UpstreamResponse) : ClientResponse :=
  if isHtmlCT r.headers then
    let body := injectKeyboard r.chunks.flatten
    { status := statusOrDefault r.statusCode
      headers := htmlOutHeaders r.headers body
      bodyChunks := [body] }
  else
    { status := statusOrDefault r.statusCode
      headers := r.headers
      bodyChunks := r.chunks }

/-- The inbound client request as Node presents it to the request listener. -/
structure InboundRequest where
  method : String
  url : String
  headers : Headers
  bodyChunks : List (List Char)

/-- The outbound request the handler opens toward the upstream. -/
structure OutboundRequest where
  hostname : String
  port : Nat
  path : String
  method : String
  headers : Headers
  bodyChunks : List (List Char)

/-- The outbound request built by the handler, from the source: localhost and
the target port, the client method and url, a copy of the client headers with
accept-encoding deleted and host overwritten to localhost:targetPort, and the
request body piped through unchanged. -/
def buildOutbound (targetPort : Nat) (req : InboundRequest) : OutboundRequest :=
  { hostname := "localhost"
    port := targetPort
    path := req.url
    method := req.method
    headers := setH "host" (HVal.str ("localhost:" ++ Nat.repr targetPort))
      (deleteH "accept-encoding" req.headers)
    bodyChunks := req.bodyChunks }

/-- Outcome of the outbound request of one exchange: a response from the
upstream, or an error event on the outbound request. -/
inductive UpstreamOutcome where
  | conn : UpstreamResponse → UpstreamOutcome
  | connError : UpstreamOutcome

/-- One full exchange, from the source: a received response goes through the
response relay; an error on the outbound request is answered with
writeHead(502) and end() — status 502, no headers, empty body — and the
upstream is not contacted again for that exchange. -/
def handleExchange : UpstreamOutcome → ClientResponse
  | .conn r => handleProxyRes r
  | .connError => { status := 502, headers := [], bodyChunks := [] }

/-- The listening server applies the one request listener to every accepted
exchange; no state is shared between exchanges. -/
def serveAll (os : List UpstreamOutcome) : List ClientResponse :=
  os.map handleExchange

/-- The parsed upgrade request as the upgrade listener receives it. -/
structure UpgradeRequest where
  method : String
  url : String
  httpVersion : String
  headers : Headers

/-- One serialized header line of the replayed handshake: name, colon, space,
value, with array values joined by comma-space.  The source filters out
undefined entries first; the header record holds no undefined value, so the
filter keeps every entry. -/
def headerLine (p : String × HVal) : String :=
  p.1 ++ ": " ++ (match p.2 with
    | .str s => s
    | .arr a => String.intercalate ", " a)

/-- The handshake the tunnel replays to the upstream, from the source: the
request line (method, url, HTTP slash version, CRLF), the header lines joined
by CRLF, and the terminating blank line. -/
def upgradeHandshake (r : UpgradeRequest) : String :=
  r.method ++ " " ++ r.url ++ " HTTP/" ++ r.httpVersion ++ "\r\n"
    ++ String.intercalate "\r\n" (r.headers.map headerLine)
    ++ "\r\n\r\n"

/-- The UTF-8 bytes a socket write of a string puts on the wire. -/
def strBytes (s : String) : List Nat :=
  s.toUTF8.toList.map (fun b => b.toNat)

/-- Everything the tunnel writes to the upstream socket, in order, from the
source: the handshake, then the pre-read head bytes when they are nonempty,
then the client chunks piped through one for one. -/
def tunnelUpstreamWrites (r : UpgradeRequest) (headBytes : List Nat)
    (clientChunks : List (List Nat)) : List Nat :=
  strBytes (upgradeHandshake r)
    ++ (if headBytes.length > 0 then headBytes else [])
    ++ clientChunks.flatten

/-- Everything the tunnel writes to the client socket: the upstream chunks
piped through one for one. -/
def tunnelClientWrites (upstreamChunks : List (List Nat)) : List Nat :=
  upstreamChunks.flatten

/-- Result of one listen attempt: the OS reports the port actually bound, or
the listener gets an error event carrying a code. -/
inductive BindResult where
  | ok : Nat → BindResult
  | err : String → BindResult
deriving DecidableEq

/-- The listen flow of startKeyboardProxy, from the source: try the preferred
port; the persistent error handler retries exactly once on port 0 when the
code is EADDRINUSE and the preferred port was nonzero (it first sets the
remembered preferred port to 0, so an error of the retry — of any code —
rejects); any other first error rejects; a success resolves with the port the
bound socket reports. -/
def startOutcome (env : Nat → BindResult) (proxyPort : Nat) : BindResult :=
  match env proxyPort with
  | .ok p => .ok p
  | .err c => if c = "EADDRINUSE" ∧ proxyPort ≠ 0 then env 0 else .err c

/-- Which of the two connections of one HTTP exchange are open. -/
structure ExchangeConns where
  clientOpen : Bool
  upstreamOpen : Bool
deriving DecidableEq

/-- Connection-level events one HTTP exchange can see. -/
inductive ExchangeEvent where
  | clientClose
  | upstreamConnError

/-- A concrete HTML upstream response, with a CSP header, used to instantiate
the HTML-branch theorems. -/
def sampleHtmlResponse : UpstreamResponse :=
  { statusCode := some 200
    headers := [("content-type", HVal.str "text/html"),
                ("content-security-policy", HVal.str "default-src *")]
    chunks := ["<html><head>".data, "</head><body></body></html>".data] }

/-- A concrete non-HTML upstream response. -/
def sampleJsonResponse : UpstreamResponse :=
  { statusCode := some 404
    headers := [("content-type", HVal.str "application/json")]
    chunks := ["ab".data, "cd".data] }

/-- A concrete upstream response with no content-type header at all. -/
def sampleNoCTResponse : UpstreamResponse :=
  { statusCode := none
    headers := [("content-length", HVal.str "2")]
    chunks := ["ok".data] }

/-- Connection-level effect of an event on one HTTP exchange, as wired in the
source.  The only handler the HTTP path installs is the error handler of the
outbound request; the two pipe calls relay data and end events, and a Node
pipe reacts to its peer closing by unpiping, never by destroying the other
stream.  No handler observes the client connection closing, so that event
changes nothing on the upstream side; an error on the outbound request ends
the upstream attempt (the 502 answer is modelled in handleExchange). -/
def exchangeStep (s : ExchangeConns) : ExchangeEvent → ExchangeConns
  | .clientClose => { s with clientOpen := false }
  | .upstreamConnError => { s with upstreamOpen := false }

end OpencodeProxy

namespace OpencodeProxy

theorem lookupH_deleteH_self (k : String) (h : Headers) :
    lookupH k (deleteH k h) = none := by
  induction h with
  | nil => rfl
  | cons p t ih =>
    obtain ⟨k₁, v⟩ := p
    by_cases hk : k₁ = k
    · simp [deleteH, hk, ih]
    · simp [deleteH, lookupH, hk, ih]

theorem lookupH_deleteH_ne (k k₁ : String) (hne : k₁ ≠ k) (h : Headers) :
    lookupH k (deleteH k₁ h) = lookupH k h := by
  induction h with
  | nil => rfl
  | cons p t ih =>
    obtain ⟨k₂, v⟩ := p
    by_cases hk : k₂ = k₁
    · subst hk
      simp [deleteH, lookupH, hne, ih]
    · simp [deleteH, lookupH, hk, ih]

theorem lookupH_setH_self (k : String) (v : HVal) (h : Headers) :
    lookupH k (setH k v h) = some v := by
  induction h with
  | nil => simp [setH, lookupH]
  | cons p t ih =>
    obtain ⟨k₁, v₁⟩ := p
    by_cases hk : k₁ = k
    · simp [setH, hk, lookupH]
    · simp [setH, lookupH, hk, ih]

theorem lookupH_setH_ne (k k₁ : String) (v : HVal) (hne : k₁ ≠ k) (h : Headers) :
    lookupH k (setH k₁ v h) = lookupH k h := by
  induction h with
  | nil => simp [setH, lookupH, hne]
  | cons p t ih =>
    obtain ⟨k₂, v₂⟩ := p
    by_cases hk : k₂ = k₁
    · subst hk
      simp [setH, lookupH, hne, ih]
    · simp [setH, lookupH, hk, ih]

theorem isPre_nil_iff {α : Type} [DecidableEq α] (p : List α) :
    isPre p ([] : List α) = true ↔ p = [] := by
  cases p <;> simp [isPre]

theorem isPre_append_drop {α : Type} [DecidableEq α] (p l : List α)
    (h : isPre p l = true) : p ++ l.drop p.length = l := by
  induction p generalizing l with
  | nil => simp
  | cons a p ih =>
    cases l with
    | nil => simp [isPre] at h
    | cons b l =>
      rw [isPre, Bool.and_eq_true] at h
      obtain ⟨hab, hp⟩ := h
      obtain rfl : a = b := of_decide_eq_true hab
      simp only [List.length_cons, List.drop_succ_cons, List.cons_append,
        List.cons.injEq, true_and]
      exact ih l hp

theorem containsSeq_eq_isSome_firstOcc {α : Type} [DecidableEq α] (p l : List α) :
    containsSeq p l = (firstOcc p l).isSome := by
  induction l with
  | nil =>
    rw [containsSeq, firstOcc]
    by_cases h : isPre p ([] : List α) = true <;> simp [h]
  | cons a t ih =>
    rw [containsSeq, firstOcc]
    by_cases h : isPre p (a :: t) = true <;> simp [h, ih]

theorem replaceFirst_eq_insert {α : Type} [DecidableEq α] (p x l : List α) (k : Nat)
    (h : firstOcc p l = some k) :
    replaceFirst p (x ++ p) l = l.take k ++ x ++ l.drop k := by
  induction l generalizing k with
  | nil =>
    rw [firstOcc] at h
    by_cases hp : isPre p ([] : List α) = true
    · rw [if_pos hp] at h
      obtain rfl : (0 : Nat) = k := Option.some.inj h
      obtain rfl : p = [] := (isPre_nil_iff p).mp hp
      rw [replaceFirst, if_pos hp]
      simp
    · rw [if_neg hp] at h
      exact absurd h (by simp)
  | cons a t ih =>
    rw [firstOcc] at h
    by_cases hp : isPre p (a :: t) = true
    · rw [if_pos hp] at h
      obtain rfl : (0 : Nat) = k := Option.some.inj h
      rw [replaceFirst, if_pos hp]
      simp only [List.take_zero, List.drop_zero, List.nil_append]
      rw [List.append_assoc, isPre_append_drop p _ hp]
    · rw [if_neg hp] at h
      cases hk : firstOcc p t with
      | none => rw [hk] at h; simp at h
      | some k₁ =>
        rw [hk] at h
        simp only [Option.map_some'] at h
        obtain rfl : k₁ + 1 = k := Option.some.inj h
        rw [replaceFirst, if_neg hp, ih k₁ hk]
        simp

end OpencodeProxy

namespace OpencodeProxy

/-- C1: for an HTML upstream response, the delivered body is the upstream
body with the injected script placed immediately before the first occurrence
of the closing head tag when one exists and appended at the end otherwise,
and the content-length header sent to the client is the decimal of the UTF-8
byte length of the mutated body. -/
theorem htmlInjection_correct (r : UpstreamResponse) (hct : isHtmlCT r.headers = true) :
    (∀ k, firstOcc headCloseTag.data r.chunks.flatten = some k →
      (handleProxyRes r).bodyChunks
        = [r.chunks.flatten.take k ++ KEYBOARD_SCRIPT.data ++ r.chunks.flatten.drop k]) ∧
    (firstOcc headCloseTag.data r.chunks.flatten = none →
      (handleProxyRes r).bodyChunks = [r.chunks.flatten ++ KEYBOARD_SCRIPT.data]) ∧
    lookupH "content-length" (handleProxyRes r).headers
      = some (HVal.str (Nat.repr (utf8Len (handleProxyRes r).bodyChunks.flatten))) := by
  have hres : handleProxyRes r =
      { status := statusOrDefault r.statusCode
        headers := htmlOutHeaders r.headers (injectKeyboard r.chunks.flatten)
        bodyChunks := [injectKeyboard r.chunks.flatten] } := by
    rw [handleProxyRes, if_pos hct]
  refine ⟨?_, ?_, ?_⟩
  · intro k hk
    rw [hres]
    have hc : containsSeq headCloseTag.data r.chunks.flatten = true := by
      rw [containsSeq_eq_isSome_firstOcc, hk]
      rfl
    rw [injectKeyboard, if_pos hc,
      replaceFirst_eq_insert headCloseTag.data KEYBOARD_SCRIPT.data r.chunks.flatten k hk]
  · intro hk
    rw [hres]
    have hc : containsSeq headCloseTag.data r.chunks.flatten = false := by
      rw [containsSeq_eq_isSome_firstOcc, hk]
      rfl
    simp [injectKeyboard, hc]
  · rw [hres]
    show lookupH "content-length"
        (htmlOutHeaders r.headers (injectKeyboard r.chunks.flatten)) = _
    rw [htmlOutHeaders,
      lookupH_deleteH_ne "content-length" "content-security-policy-report-only" (by decide),
      lookupH_deleteH_ne "content-length" "content-security-policy" (by decide),
      lookupH_deleteH_ne "content-length" "content-encoding" (by decide),
      lookupH_setH_self]
    simp

/-- C2: for an HTML upstream response, the headers written to the client hold
neither content-security-policy nor content-security-policy-report-only. -/
theorem csp_stripped (r : UpstreamResponse) (hct : isHtmlCT r.headers = true) :
    lookupH "content-security-policy" (handleProxyRes r).headers = none ∧
    lookupH "content-security-policy-report-only" (handleProxyRes r).headers = none := by
  have hres : (handleProxyRes r).headers
      = htmlOutHeaders r.headers (injectKeyboard r.chunks.flatten) := by
    rw [handleProxyRes, if_pos hct]
  rw [hres, htmlOutHeaders]
  constructor
  · rw [lookupH_deleteH_ne "content-security-policy"
      "content-security-policy-report-only" (by decide)]
    exact lookupH_deleteH_self _ _
  · exact lookupH_deleteH_self _ _

/-- C3: a non-HTML upstream response reaches the client untouched: same
status, the upstream header record passed through as is, and the body chunks
relayed one for one without being joined into a buffer. -/
theorem nonHtml_passthrough (r : UpstreamResponse) (s : Nat)
    (hct : isHtmlCT r.headers = false) (hs : r.statusCode = some s) (h0 : s ≠ 0) :
    handleProxyRes r
      = { status := s, headers := r.headers, bodyChunks := r.chunks } := by
  rw [handleProxyRes, if_neg (by simp [hct]), hs]
  simp [statusOrDefault, h0]

/-- C9: with no content-type header at all the response is treated exactly
like a non-HTML one: the defaulted empty string does not contain text/html
and status, headers and body stream through untouched. -/
theorem missing_contentType_passthrough (r : UpstreamResponse)
    (h : lookupH "content-type" r.headers = none) :
    isHtmlCT r.headers = false ∧
    handleProxyRes r
      = { status := statusOrDefault r.statusCode
          headers := r.headers
          bodyChunks := r.chunks } := by
  have hct : isHtmlCT r.headers = false := by
    rw [isHtmlCT, h]
    decide
  exact ⟨hct, by rw [handleProxyRes, if_neg (by simp [hct])]⟩

/-- C10: the rewrite decision reads only the headers; a nonzero status is
preserved by both branches (an HTML error page is mutated exactly like a 200
page), and a missing status code is written as 200 in both branches. -/
theorem rewrite_ignores_status :
    (∀ (st st' : Option Nat) (h : Headers) (ch ch' : List (List Char)),
      isHtmlCT (UpstreamResponse.mk st h ch).headers
        = isHtmlCT (UpstreamResponse.mk st' h ch').headers) ∧
    (∀ (s : Nat) (h : Headers) (ch : List (List Char)), s ≠ 0 →
      handleProxyRes ⟨some s, h, ch⟩
        = { handleProxyRes ⟨some 200, h, ch⟩ with status := s }) ∧
    (∀ (h : Headers) (ch : List (List Char)),
      (handleProxyRes ⟨none, h, ch⟩).status = 200) := by
  refine ⟨fun _ _ _ _ _ => rfl, ?_, ?_⟩
  · intro s h ch hs
    by_cases hct : isHtmlCT h = true <;>
      simp [handleProxyRes, hct, statusOrDefault, hs]
  · intro h ch
    by_cases hct : isHtmlCT h = true <;>
      simp [handleProxyRes, hct, statusOrDefault]

end OpencodeProxy

namespace OpencodeProxy

/-- C4: the outbound request differs from the inbound one in exactly the two
prescribed headers — accept-encoding is removed and host is overwritten with
localhost:targetPort — while every other header, the method, the url and the
body chunks are forwarded unchanged. -/
theorem outbound_header_transform (tp : Nat) (req : InboundRequest) :
    lookupH "accept-encoding" (buildOutbound tp req).headers = none ∧
    lookupH "host" (buildOutbound tp req).headers
      = some (HVal.str ("localhost:" ++ Nat.repr tp)) ∧
    (∀ k, k ≠ "accept-encoding" → k ≠ "host" →
      lookupH k (buildOutbound tp req).headers = lookupH k req.headers) ∧
    (buildOutbound tp req).method = req.method ∧
    (buildOutbound tp req).path = req.url ∧
    (buildOutbound tp req).bodyChunks = req.bodyChunks := by
  refine ⟨?_, ?_, ?_, rfl, rfl, rfl⟩
  · show lookupH "accept-encoding"
        (setH "host" _ (deleteH "accept-encoding" req.headers)) = none
    rw [lookupH_setH_ne "accept-encoding" "host" _ (by decide)]
    exact lookupH_deleteH_self _ _
  · exact lookupH_setH_self _ _ _
  · intro k hk1 hk2
    show lookupH k (setH "host" _ (deleteH "accept-encoding" req.headers))
        = lookupH k req.headers
    rw [lookupH_setH_ne k "host" _ (Ne.symm hk2)]
    exact lookupH_deleteH_ne k "accept-encoding" (Ne.symm hk1) _

/-- C5: an error on the outbound connection of one exchange is answered with
status 502 and an empty body, and every other exchange of the server is
handled from its own upstream outcome alone. -/
theorem upstream_error_502 :
    handleExchange UpstreamOutcome.connError
      = { status := 502, headers := [], bodyChunks := [] } ∧
    ∀ (os : List UpstreamOutcome) (i : Nat) (o : UpstreamOutcome),
      os[i]? = some o → (serveAll os)[i]? = some (handleExchange o) := by
  refine ⟨rfl, ?_⟩
  intro os i o hio
  rw [serveAll, List.getElem?_map, hio, Option.map_some']

/-- C6: the tunnel writes to the upstream socket exactly the reconstructed
request line and headers, then the pre-read head bytes, then the client
chunks in order; and to the client socket exactly the upstream chunks in
order. -/
theorem upgrade_tunnel_writes (r : UpgradeRequest) (headBytes : List Nat)
    (clientChunks upstreamChunks : List (List Nat)) :
    tunnelUpstreamWrites r headBytes clientChunks
      = strBytes (upgradeHandshake r) ++ headBytes ++ clientChunks.flatten ∧
    tunnelClientWrites upstreamChunks = upstreamChunks.flatten := by
  refine ⟨?_, rfl⟩
  rw [tunnelUpstreamWrites]
  by_cases hh : headBytes.length > 0
  · rw [if_pos hh]
  · have h0 : headBytes = [] :=
      List.eq_nil_of_length_eq_zero (Nat.eq_zero_of_not_pos hh)
    rw [if_neg hh, h0]

/-- Unfolding of the listen flow on a successful first bind. -/
theorem startOutcome_ok_eq (env : Nat → BindResult) (pp q : Nat)
    (h : env pp = BindResult.ok q) : startOutcome env pp = BindResult.ok q := by
  rw [startOutcome, h]

/-- Unfolding of the listen flow on a failed first bind. -/
theorem startOutcome_err_eq (env : Nat → BindResult) (pp : Nat) (c : String)
    (h : env pp = BindResult.err c) :
    startOutcome env pp
      = if c = "EADDRINUSE" ∧ pp ≠ 0 then env 0 else BindResult.err c := by
  rw [startOutcome, h]

/-- C7: the start promise resolves with port p exactly when the first bind
succeeds with p, or the preferred port was nonzero, its bind failed with
address-in-use, and the one ephemeral retry succeeds with p; every other
combination rejects. -/
theorem bind_retry_once (env : Nat → BindResult) (pp p : Nat) :
    startOutcome env pp = BindResult.ok p ↔
      (env pp = BindResult.ok p ∨
        (pp ≠ 0 ∧ env pp = BindResult.err "EADDRINUSE" ∧ env 0 = BindResult.ok p)) := by
  cases h : env pp with
  | ok q =>
    rw [startOutcome_ok_eq env pp q h]
    simp
  | err c =>
    rw [startOutcome_err_eq env pp c h]
    by_cases hc : c = "EADDRINUSE" ∧ pp ≠ 0
    · obtain ⟨hc1, hpp⟩ := hc
      subst hc1
      rw [if_pos ⟨rfl, hpp⟩]
      simp [hpp]
    · rw [if_neg hc]
      constructor
      · intro hcontra
        exact absurd hcontra (by simp)
      · rintro (h1 | ⟨hpp, h2, h3⟩)
        · exact absurd h1 (by simp)
        · obtain rfl : c = "EADDRINUSE" := BindResult.err.inj h2
          exact absurd ⟨rfl, hpp⟩ hc

/-- C8 (the divergence): in the wiring of the source, the client connection
closing triggers no handler of the exchange, so the upstream side of the
exchange stays open — the in-flight upstream request is not cancelled. -/
theorem clientClose_leaves_upstream_open :
    (exchangeStep { clientOpen := true, upstreamOpen := true }
        ExchangeEvent.clientClose).upstreamOpen = true := rfl

end OpencodeProxy

namespace OpencodeProxy

/-- Witness for C1 at a concrete HTML response. -/
theorem htmlInjection_correct_witness :
    isHtmlCT sampleHtmlResponse.headers = true ∧
    ((∀ k, firstOcc headCloseTag.data sampleHtmlResponse.chunks.flatten = some k →
        (handleProxyRes sampleHtmlResponse).bodyChunks
          = [sampleHtmlResponse.chunks.flatten.take k ++ KEYBOARD_SCRIPT.data
              ++ sampleHtmlResponse.chunks.flatten.drop k]) ∧
      (firstOcc headCloseTag.data sampleHtmlResponse.chunks.flatten = none →
        (handleProxyRes sampleHtmlResponse).bodyChunks
          = [sampleHtmlResponse.chunks.flatten ++ KEYBOARD_SCRIPT.data]) ∧
      lookupH "content-length" (handleProxyRes sampleHtmlResponse).headers
        = some (HVal.str (Nat.repr
            (utf8Len (handleProxyRes sampleHtmlResponse).bodyChunks.flatten)))) :=
  ⟨by decide, htmlInjection_correct sampleHtmlResponse (by decide)⟩

/-- Witness for C2 at a concrete HTML response carrying a CSP header. -/
theorem csp_stripped_witness :
    isHtmlCT sampleHtmlResponse.headers = true ∧
    lookupH "content-security-policy" sampleHtmlResponse.headers
      = some (HVal.str "default-src *") ∧
    (lookupH "content-security-policy" (handleProxyRes sampleHtmlResponse).headers = none ∧
      lookupH "content-security-policy-report-only"
        (handleProxyRes sampleHtmlResponse).headers = none) :=
  ⟨by decide, by decide, csp_stripped sampleHtmlResponse (by decide)⟩

/-- Witness for C3 at a concrete non-HTML response with a 404 status. -/
theorem nonHtml_passthrough_witness :
    isHtmlCT sampleJsonResponse.headers = false ∧
    sampleJsonResponse.statusCode = some 404 ∧ (404 : Nat) ≠ 0 ∧
    handleProxyRes sampleJsonResponse
      = { status := 404
          headers := sampleJsonResponse.headers
          bodyChunks := sampleJsonResponse.chunks } :=
  ⟨by decide, rfl, by decide,
    nonHtml_passthrough sampleJsonResponse 404 (by decide) rfl (by decide)⟩

/-- Witness for C9 at a concrete response lacking the content-type header. -/
theorem missing_contentType_passthrough_witness :
    lookupH "content-type" sampleNoCTResponse.headers = none ∧
    (isHtmlCT sampleNoCTResponse.headers = false ∧
      handleProxyRes sampleNoCTResponse
        = { status := statusOrDefault sampleNoCTResponse.statusCode
            headers := sampleNoCTResponse.headers
            bodyChunks := sampleNoCTResponse.chunks }) :=
  ⟨by decide, missing_contentType_passthrough sampleNoCTResponse (by decide)⟩

end OpencodeProxy
